import Mathlib

/-
Verification of the netkarkat connection-driver subsystem and interactive
session loop, shallowly embedded from the Go sources:
  internal/driver/driver.go      (logging callback bundle)
  internal/driver/tcpclient.go   (TCPConnection: Send / Close / reader)
  internal/driver/udp driver     (UDPConnection: Send / Close / reader loop)
  internal/driver tcp server     (TCPServerConnection: accept loop, Close, Send)
  internal/console session loop  (promptWithConnectionMonitor, StartPrompt)

Conventions of the embedding:
  * time durations and instants are Nat milliseconds;
  * Go nil pointers / nil function values are Option.none;
  * each Go method whose effects matter to a claim is a pure function from
    an explicit state record (plus the outcome of the external I/O actions
    it performs, passed as parameters) to the updated state together with a
    record of the observable actions it took;
  * goroutine spawns (go f()) are modelled as the spawned work completing,
    which is the eventual effect the claims speak about.
-/

/- ====================  driver.go : LoggingCallbacks  ==================== -/

/-- A Go function value stored in a LoggingCallbacks slot: either the no-op
function substituted by NewLoggingCallbacks or a user-supplied function,
identified abstractly by a tag. A Go nil function value is `Option.none`
around this type. -/
inductive LogFn where
  | noop : LogFn
  | user : Nat → LogFn
deriving DecidableEq, Repr

/-- Embeds struct LoggingCallbacks (driver.go): four level-tagged formatter
slots; a nil slot is none. -/
structure LoggingCallbacks where
  traceCb : Option LogFn
  debugCb : Option LogFn
  warnCb : Option LogFn
  errorCb : Option LogFn
deriving DecidableEq, Repr

/-- Embeds (lc LoggingCallbacks) isValid() (driver.go line 122):
lc.traceCb != nil && lc.warnCb != nil && lc.debugCb != nil && lc.errorCb != nil. -/
def LoggingCallbacks.isValid (lc : LoggingCallbacks) : Bool :=
  lc.traceCb.isSome && lc.warnCb.isSome && lc.debugCb.isSome && lc.errorCb.isSome

/-- Embeds NewLoggingCallbacks (driver.go lines 133-151): packages the four
arguments, replacing each nil argument by a no-op function. -/
def NewLoggingCallbacks (traceCb debugCb warnCb errorCb : Option LogFn) :
    LoggingCallbacks :=
  let lc : LoggingCallbacks :=
    { traceCb := traceCb, debugCb := debugCb, warnCb := warnCb, errorCb := errorCb }
  let lc := if lc.traceCb = none then { lc with traceCb := some LogFn.noop } else lc
  let lc := if lc.debugCb = none then { lc with debugCb := some LogFn.noop } else lc
  let lc := if lc.warnCb = none then { lc with warnCb := some LogFn.noop } else lc
  let lc := if lc.errorCb = none then { lc with errorCb := some LogFn.noop } else lc
  lc

/-- The zero value LoggingCallbacks literal, as a caller building the struct
by hand (not via NewLoggingCallbacks) would produce. -/
def zeroLoggingCallbacks : LoggingCallbacks :=
  { traceCb := none, debugCb := none, warnCb := none, errorCb := none }

/- ==========  tcp server: TLS handshake deadline (startListening)  ========== -/

/-- Embeds the TLS handshake deadline computation of the accept loop in
startListening (tcp server source, lines 337-348).  Times are Nat
milliseconds; the Go zero time.Time is 0.  nowLoopMs is the instant read at
the top of the loop iteration (timeoutDeadline := now + timeout); nowTLSMs
is the instant read just before the handshake deadline is computed.
The source first computes the minimum of maxTLSHandshakeDeadline and
timeoutDeadline into tlsHandshakeDeadline, then on its next line
unconditionally reassigns tlsHandshakeDeadline = timeoutDeadline. -/
def serverTLSHandshakeDeadline (hasTLSConf : Bool) (timeoutMs nowLoopMs nowTLSMs : Nat) : Nat :=
  let timeoutDeadline := nowLoopMs + timeoutMs
  if hasTLSConf && timeoutMs != 0 then
    let maxTLSHandshakeDeadline := nowTLSMs + 10000
    let tlsHandshakeDeadline :=
      if timeoutDeadline > maxTLSHandshakeDeadline then maxTLSHandshakeDeadline
      else timeoutDeadline
    let tlsHandshakeDeadline := timeoutDeadline
    tlsHandshakeDeadline
  else 0

/-- The handshake deadline as the specification words it: the earlier of
(now + 10 s) and the remaining accept deadline.  Stated from the spec, for
comparison against the deadline the source actually computes. -/
def specTLSHandshakeDeadline (timeoutMs nowLoopMs nowTLSMs : Nat) : Nat :=
  min (nowTLSMs + 10000) (nowLoopMs + timeoutMs)

/- ====================  shared result types  ==================== -/

/-- The distinct error results a Send can produce, standing for the distinct
fmt.Errorf messages of the sources. -/
inductive SendError where
  | closedErr : SendError
  | noClient : SendError
  | writeFailed : SendError
deriving DecidableEq, Repr

/-- Observable actions a Close call performs: the duration of the socket (or
listener) deadline it sets, the bound of its wait on doneSignal, and whether
it then forcibly closed the socket.  An already-closed endpoint performs
none of them. -/
structure CloseActions where
  setDeadlineMs : Option Nat
  waitBoundMs : Option Nat
  forcedSocketClose : Bool
deriving DecidableEq, Repr

/-- The empty action record of a Close that returned early. -/
def CloseActions.none : CloseActions :=
  { setDeadlineMs := Option.none, waitBoundMs := Option.none, forcedSocketClose := false }

/- ====================  tcpclient.go : TCPConnection  ==================== -/

/-- Embeds the TCPConnection state fields the claims depend on
(tcpclient.go lines 15-28).  invalidated records that the onInvalidate hook
has been invoked (for a plain client it is a no-op; for the inner endpoint
of a server it is synchedInvalidateEstab). -/
structure TCPConnection where
  closed : Bool
  closeInitiated : Bool
  invalidated : Bool
  timedOut : Bool
deriving DecidableEq, Repr

/-- Result of one TCPConnection.Send call: the post state, whether a write
to the socket was attempted, and the error returned (none on success). -/
structure TCPSendResult where
  st : TCPConnection
  wrote : Bool
  err : Option SendError
deriving DecidableEq, Repr

/-- Embeds (conn *TCPConnection) Send (tcpclient.go lines 226-238).
writeFails is the outcome of conn.socket.Write.  If closed, fail before any
write.  On write failure the source runs go conn.Close() (which sets closed
and closeInitiated) and conn.onInvalidate(), then returns the error. -/
def TCPConnection.Send (st : TCPConnection) (writeFails : Bool) : TCPSendResult :=
  if st.closed then
    { st := st, wrote := false, err := some SendError.closedErr }
  else if writeFails then
    { st := { st with closed := true, closeInitiated := true, invalidated := true },
      wrote := true, err := some SendError.writeFailed }
  else
    { st := st, wrote := true, err := none }

/-- Result of one TCPConnection.Close call: post state, actions, and whether
the call returned nil. -/
structure TCPCloseResult where
  st : TCPConnection
  actions : CloseActions
  returnedNil : Bool
deriving DecidableEq, Repr

/-- Embeds (conn *TCPConnection) Close (tcpclient.go lines 190-216).  Under
closeMutex: if already closed return nil at once; otherwise set closed and
closeInitiated, set a 50 ms socket deadline, wait on doneSignal bounded by
99 ms, then force conn.socket.Close(), whose failure (sockCloseFails) is the
only error path. -/
def TCPConnection.Close (st : TCPConnection) (sockCloseFails : Bool) : TCPCloseResult :=
  if st.closed then
    { st := st, actions := CloseActions.none, returnedNil := true }
  else
    { st := { st with closed := true, closeInitiated := true },
      actions := { setDeadlineMs := some 50, waitBoundMs := some 99, forcedSocketClose := true },
      returnedNil := !sockCloseFails }

/- ====================  udp driver : UDPConnection  ==================== -/

/-- Embeds net.UDPAddr: IP (a byte slice; net.IP.Equal abstracted to byte
equality, which is what it computes on same-family addresses), Zone and
Port. -/
structure UDPAddr where
  ip : List Nat
  zone : String
  port : Nat
deriving DecidableEq, Repr

/-- String rendering of an Option UDPAddr pointer; the nil pointer renders
as the Go nil-receiver String() result. -/
def udpAddrStr (a : Option UDPAddr) : String :=
  match a with
  | Option.none => "<nil>"
  | some x => toString x.port

/-- Classification of a non-nil error from a socket read, after the
net.Error Timeout() test the sources apply. -/
inductive NetError where
  | timeout : NetError
  | eof : NetError
  | other : NetError
deriving DecidableEq, Repr

/-- Embeds the UDPConnection state fields the claims depend on
(udp driver lines 13-29). -/
structure UDPConnection where
  startedHalfOpen : Bool
  firstConnected : Option UDPAddr
  timeoutMs : Nat
  timedOut : Bool
  hname : String
  closeInitiated : Bool
  closed : Bool
deriving DecidableEq, Repr

/-- Embeds (conn *UDPConnection) Ready (udp driver lines 187-192). -/
def UDPConnection.Ready (st : UDPConnection) : Bool :=
  if st.startedHalfOpen then st.firstConnected.isSome else true

/-- Destination of a UDP write: WriteToUDP carries the (possibly nil)
address pointer it was given; Write uses the connected socket. -/
inductive UDPWriteDest where
  | writeToUDP : Option UDPAddr → UDPWriteDest
  | connectedWrite : UDPWriteDest
deriving DecidableEq, Repr

/-- Result of one UDPConnection.Send call: post state, the write performed
(none if the call failed before writing), and the error returned. -/
structure UDPSendResult where
  st : UDPConnection
  wrote : Option UDPWriteDest
  err : Option SendError
deriving DecidableEq, Repr

/-- Embeds (conn *UDPConnection) Send (udp driver lines 152-172): fail if
closed; fail if not Ready (half-open with no peer yet); otherwise
WriteToUDP(data, firstConnected) when half-open, else Write(data).  A write
error is returned to the caller with no state change. -/
def UDPConnection.Send (st : UDPConnection) (writeFails : Bool) : UDPSendResult :=
  if st.closed then
    { st := st, wrote := none, err := some SendError.closedErr }
  else if !(UDPConnection.Ready st) then
    { st := st, wrote := none, err := some SendError.noClient }
  else
    let dest := if st.startedHalfOpen then UDPWriteDest.writeToUDP st.firstConnected
                else UDPWriteDest.connectedWrite
    if writeFails then
      { st := st, wrote := some dest, err := some SendError.writeFailed }
    else
      { st := st, wrote := some dest, err := none }

/-- Result of one UDPConnection.Close call. -/
structure UDPCloseResult where
  st : UDPConnection
  actions : CloseActions
  returnedNil : Bool
deriving DecidableEq, Repr

/-- Embeds (conn *UDPConnection) Close (udp driver lines 119-144).  Under
closeMutex: if already closed return nil; otherwise set closeInitiated and
closed, set a 50 ms socket deadline, wait on doneSignal bounded by
1 second (1000 ms), then force conn.socket.Close(). -/
def UDPConnection.Close (st : UDPConnection) (sockCloseFails : Bool) : UDPCloseResult :=
  if st.closed then
    { st := st, actions := CloseActions.none, returnedNil := true }
  else
    { st := { st with closed := true, closeInitiated := true },
      actions := { setDeadlineMs := some 50, waitBoundMs := some 1000, forcedSocketClose := true },
      returnedNil := !sockCloseFails }

/- ------------ udp half-open reader loop body (startReaderThread) ------------ -/

/-- How one iteration of the reader loop leaves the loop control flow.
panicNilDeref marks a Go nil-pointer dereference: a field access through a
nil *net.UDPAddr. -/
inductive LoopCtl where
  | cont : LoopCtl
  | brk : LoopCtl
  | panicNilDeref : LoopCtl
deriving DecidableEq, Repr

/-- Result of one iteration of the half-open reader loop: post state,
whether the receive handler was spawned for the read bytes, whether the
drop-mismatched-datagram debug log fired, and the loop control outcome. -/
structure UDPIterResult where
  st : UDPConnection
  delivered : Bool
  loggedDrop : Bool
  ctl : LoopCtl
deriving DecidableEq, Repr

/-- Embeds the peer comparison of the reader loop (udp driver line 244):
!conn.firstConnected.IP.Equal(remoteAddr.IP) ||
conn.firstConnected.Zone != remoteAddr.Zone ||
conn.firstConnected.Port != remoteAddr.Port.
Evaluating a field of a nil pointer is a runtime panic, modelled as none;
the first conjunct already dereferences both pointers. -/
def udpPeerMismatch (firstConnected remoteAddr : Option UDPAddr) : Option Bool :=
  match firstConnected with
  | Option.none => Option.none
  | some f =>
    match remoteAddr with
    | Option.none => Option.none
    | some r => some (!(f.ip == r.ip) || (f.zone != r.zone) || (f.port != r.port))

/-- Embeds the half-open reader loop body after the pre-pin timeout block
(udp driver lines 238-273): pin the source of the first datagram (the
assignment happens even when ReadFromUDP returned a nil address alongside
an error), compare every datagram source against the pinned peer, drop
mismatches with a debug log (checking the read error before continuing),
then spawn the receive handler for n > 0 bytes and break on a read error. -/
def udpHalfOpenIterTail (st : UDPConnection) (n : Nat) (remoteAddr : Option UDPAddr)
    (err : Option NetError) : UDPIterResult :=
  let st :=
    if st.firstConnected.isNone then
      { st with firstConnected := remoteAddr, hname := udpAddrStr remoteAddr }
    else st
  match udpPeerMismatch st.firstConnected remoteAddr with
  | Option.none => { st := st, delivered := false, loggedDrop := false, ctl := LoopCtl.panicNilDeref }
  | some true =>
    match err with
    | some _ => { st := st, delivered := false, loggedDrop := true, ctl := LoopCtl.brk }
    | Option.none => { st := st, delivered := false, loggedDrop := true, ctl := LoopCtl.cont }
  | some false =>
    match err with
    | some _ => { st := st, delivered := decide (0 < n), loggedDrop := false, ctl := LoopCtl.brk }
    | Option.none => { st := st, delivered := decide (0 < n), loggedDrop := false, ctl := LoopCtl.cont }

/-- Embeds one full iteration of the half-open branch of the reader loop
(udp driver lines 210-252 with the shared tail 257-273).  n, remoteAddr and
err are the results of conn.socket.ReadFromUDP(buf).  Before the first
datagram, with a timeout configured: a timeout error either continues
silently (close initiated) or marks timedOut and breaks; any other error
falls through to the deadline reset and the pin. -/
def udpHalfOpenIter (st : UDPConnection) (n : Nat) (remoteAddr : Option UDPAddr)
    (err : Option NetError) : UDPIterResult :=
  if st.firstConnected.isNone && st.timeoutMs != 0 then
    match err with
    | some NetError.timeout =>
      if st.closeInitiated then
        { st := st, delivered := false, loggedDrop := false, ctl := LoopCtl.cont }
      else
        { st := { st with timedOut := true }, delivered := false, loggedDrop := false,
          ctl := LoopCtl.brk }
    | some _ => udpHalfOpenIterTail st n remoteAddr err
    | Option.none => udpHalfOpenIterTail st n remoteAddr err
  else
    udpHalfOpenIterTail st n remoteAddr err

/- ====================  tcp server : TCPServerConnection  ==================== -/

/-- Embeds the TCPServerConnection state fields the claims depend on
(tcp server source lines 20-44).  estab holds the inner TCPConnection when
a client is established; estabClientAddr its remote address string. -/
structure TCPServerConnection where
  closed : Bool
  closeInitiated : Bool
  timedOut : Bool
  estab : Option TCPConnection
  estabClientAddr : Option String
deriving DecidableEq, Repr

/-- Embeds synchedClientIsConnected (tcp server source lines 361-368):
true iff estab is non-nil, under estabMutex. -/
def TCPServerConnection.synchedClientIsConnected (st : TCPServerConnection) : Bool :=
  st.estab.isSome

/-- Embeds (conn *TCPServerConnection) Ready (tcp server source lines
230-232). -/
def TCPServerConnection.Ready (st : TCPServerConnection) : Bool :=
  TCPServerConnection.synchedClientIsConnected st

/-- Result of one TCPServerConnection.Send call: post state, whether a
write on the inner socket was attempted, whether the call returns at all
(false marks the self-deadlock path, where the goroutine blocks forever),
and the error returned when it does return. -/
structure ServerSendResult where
  st : TCPServerConnection
  wrote : Bool
  returns : Bool
  err : Option SendError
deriving DecidableEq, Repr

/-- Embeds (conn *TCPServerConnection) Send (tcp server source lines
209-224): fail with the no-client error when not Ready; fail when closed;
then lock estabMutex (held, via defer, until Send returns) and delegate to
conn.estab.Send(data).  When the inner endpoint is already closed, its
Send returns the closed error before any write and estab stays set
(onInvalidate does not run on that path).  When the inner socket write
fails, the inner Send spawns go Close() (which marks the inner endpoint
closed) and then synchronously calls its onInvalidate hook; for a
server-created inner endpoint that hook is synchedInvalidateEstab, which
re-locks the estabMutex this Send still holds.  sync.Mutex is not
reentrant, so the goroutine self-deadlocks: Send never returns, no error
is propagated, and estab is never cleared. -/
def TCPServerConnection.Send (st : TCPServerConnection) (writeFails : Bool) : ServerSendResult :=
  if !(TCPServerConnection.Ready st) then
    { st := st, wrote := false, returns := true, err := some SendError.noClient }
  else if st.closed then
    { st := st, wrote := false, returns := true, err := some SendError.closedErr }
  else
    match st.estab with
    | Option.none =>
      { st := st, wrote := false, returns := true, err := some SendError.noClient }
    | some inner =>
      if inner.closed then
        { st := st, wrote := false, returns := true, err := some SendError.closedErr }
      else if writeFails then
        { st := { st with estab := some { inner with closed := true, closeInitiated := true } },
          wrote := true, returns := false, err := none }
      else
        { st := st, wrote := true, returns := true, err := none }

/-- Result of one TCPServerConnection.Close call. -/
structure ServerCloseResult where
  st : TCPServerConnection
  actions : CloseActions
  returnedNil : Bool
deriving DecidableEq, Repr

/-- Embeds (conn *TCPServerConnection) Close (tcp server source lines
172-204).  Under estabMutex: if already closed return nil; otherwise set
closed and closeInitiated, set a 50 ms listener deadline, wait on
doneSignal bounded by 99 ms, force the listener closed, then
synchedInvalidateEstab closes and clears any established inner endpoint. -/
def TCPServerConnection.Close (st : TCPServerConnection) (listenerCloseFails : Bool) :
    ServerCloseResult :=
  if st.closed then
    { st := st, actions := CloseActions.none, returnedNil := true }
  else
    { st := { st with closed := true, closeInitiated := true, estab := none },
      actions := { setDeadlineMs := some 50, waitBoundMs := some 99, forcedSocketClose := true },
      returnedNil := !listenerCloseFails }

/- ------------ accept loop : handling one accepted socket ------------ -/

/-- The outcome of newTCPConnectionFromAccept over an accepted socket
(tcpclient.go lines 125-181): success with a fresh inner connection; an
error with a nil connection (TLS deadline or handshake failure, where the
TLS wrapper closes the socket); or the immediately-closed probe error,
which returns the connection object alongside the error. -/
inductive InnerConnResult where
  | ok : TCPConnection → InnerConnResult
  | errNilConn : InnerConnResult
  | errImmediateClose : TCPConnection → InnerConnResult
deriving DecidableEq, Repr

/-- What the accept loop did with one successfully accepted socket. -/
structure AcceptOutcome where
  st : TCPServerConnection
  publishedEstab : Bool
  closedNewSock : Bool
  loggedRejectTrace : Bool
  invokedOnConnect : Bool
deriving DecidableEq, Repr

/-- Embeds the accept-loop segment that handles a successfully accepted
client socket (tcp server source lines 331-335 and synchedHandleAccept,
lines 371-388).  remoteAddr is clientSock.RemoteAddr().String().  When a
client is already connected the loop logs a trace line and continues: the
newly accepted socket is neither published nor closed.  Otherwise
synchedHandleAccept assigns conn.estab from newTCPConnectionFromAccept
(the assignment lands even on the probe-error path that returns a non-nil
connection with an error), and on success records the client address and
spawns the onConnect callback. -/
def serverHandleAcceptedClient (st : TCPServerConnection) (remoteAddr : String)
    (inner : InnerConnResult) : AcceptOutcome :=
  if TCPServerConnection.synchedClientIsConnected st then
    { st := st, publishedEstab := false, closedNewSock := false,
      loggedRejectTrace := true, invokedOnConnect := false }
  else
    match inner with
    | InnerConnResult.ok c =>
      { st := { st with estab := some c, estabClientAddr := some remoteAddr },
        publishedEstab := true, closedNewSock := false,
        loggedRejectTrace := false, invokedOnConnect := true }
    | InnerConnResult.errNilConn =>
      { st := { st with estab := none },
        publishedEstab := false, closedNewSock := true,
        loggedRejectTrace := false, invokedOnConnect := false }
    | InnerConnResult.errImmediateClose c =>
      { st := { st with estab := some c },
        publishedEstab := false, closedNewSock := false,
        loggedRejectTrace := false, invokedOnConnect := false }

/- ====================  console session loop  ==================== -/

/-- The view of the connection the session polls: the IsClosed and Ready
accessors of the driver.Connection interface. -/
structure ConnStatus where
  closed : Bool
  ready : Bool
deriving DecidableEq, Repr

/-- Embeds errCloseDuringPrompt (console source lines 23-26): invalid
distinguishes a closed driver from a merely not-ready one; the first flag
records whether the prompt text had already printed. -/
structure ErrCloseDuringPrompt where
  afterPrefixPrinted : Bool
  invalid : Bool
deriving DecidableEq, Repr

/-- What one 10 ms tick of promptWithConnectionMonitor decides. -/
inductive PollDecision where
  | keepPolling : PollDecision
  | failPrompt : ErrCloseDuringPrompt → PollDecision
deriving DecidableEq, Repr

/-- The poll interval of promptWithConnectionMonitor (console source line
80): time.After(10 * time.Millisecond). -/
def promptPollIntervalMs : Nat := 10

/-- Embeds the ticker branch of the select in promptWithConnectionMonitor
(console source lines 80-100): on each tick, a closed connection fails the
prompt with the invalid variant; a non-ready one fails it with the
transient (invalid = false) variant; otherwise keep polling.  Both error
variants carry afterPrefix = true. -/
def promptMonitorPoll (c : ConnStatus) : PollDecision :=
  if c.closed then
    PollDecision.failPrompt { afterPrefixPrinted := true, invalid := true }
  else if !c.ready then
    PollDecision.failPrompt { afterPrefixPrinted := true, invalid := false }
  else
    PollDecision.keepPolling

/-- How StartPrompt reacts to an errCloseDuringPrompt from the prompt. -/
inductive SessionStep where
  | exitWithError : SessionStep
  | recreateLinerAndContinue : SessionStep
deriving DecidableEq, Repr

/-- Embeds the errCloseDuringPrompt arm of StartPrompt (console source
lines 335-346): the invalid variant is returned, ending the session; the
transient variant prints a disconnect notice, recreates the line editor via
setupConsoleLiner, and continues the loop. -/
def sessionHandleCloseErr (e : ErrCloseDuringPrompt) : SessionStep :=
  if e.invalid then SessionStep.exitWithError
  else SessionStep.recreateLinerAndContinue

/- ====================  sample states for witnesses  ==================== -/

/-- A live TCP client connection. -/
def tcpOpenSample : TCPConnection :=
  { closed := false, closeInitiated := false, invalidated := false, timedOut := false }

/-- A TCP client connection that has been closed. -/
def tcpClosedSample : TCPConnection :=
  { tcpOpenSample with closed := true, closeInitiated := true }

/-- A concrete datagram source address. -/
def addrASample : UDPAddr := { ip := [10, 0, 0, 1], zone := "", port := 9000 }

/-- A second, different datagram source address. -/
def addrBSample : UDPAddr := { ip := [10, 0, 0, 2], zone := "", port := 9001 }

/-- A connected-mode (not half-open) open UDP connection. -/
def udpConnectedSample : UDPConnection :=
  { startedHalfOpen := false, firstConnected := none, timeoutMs := 0, timedOut := false,
    hname := "10.0.0.1:9000", closeInitiated := false, closed := false }

/-- A half-open UDP connection with no datagram received yet. -/
def udpUnpinnedSample : UDPConnection :=
  { startedHalfOpen := true, firstConnected := none, timeoutMs := 0, timedOut := false,
    hname := "", closeInitiated := false, closed := false }

/-- A half-open UDP connection pinned to addrASample. -/
def udpPinnedSample : UDPConnection :=
  { udpUnpinnedSample with firstConnected := some addrASample, hname := "9000" }

/-- A closed half-open UDP connection. -/
def udpClosedSample : UDPConnection :=
  { udpPinnedSample with closed := true, closeInitiated := true }

/-- A TCP server with an established inner client. -/
def serverEstabSample : TCPServerConnection :=
  { closed := false, closeInitiated := false, timedOut := false,
    estab := some tcpOpenSample, estabClientAddr := some "10.0.0.1:9000" }

/-- A TCP server still listening, no client yet. -/
def serverListeningSample : TCPServerConnection :=
  { serverEstabSample with estab := none, estabClientAddr := none }

/-- A TCP server that has been closed. -/
def serverClosedSample : TCPServerConnection :=
  { serverListeningSample with closed := true, closeInitiated := true }

/- ====================  claims C1 and C10  ==================== -/

/-- C10: every LoggingCallbacks produced by NewLoggingCallbacks, for every
combination of arguments including nil ones, has all four callbacks non-nil
and passes the isValid check run by every endpoint constructor; hence a set
rejected by isValid is never a constructor output and can only have been
built by hand (in particular the zero-valued literal is rejected). -/
theorem newLoggingCallbacks_always_valid :
    (∀ t d w e : Option LogFn,
      ((NewLoggingCallbacks t d w e).traceCb.isSome = true ∧
       (NewLoggingCallbacks t d w e).debugCb.isSome = true ∧
       (NewLoggingCallbacks t d w e).warnCb.isSome = true ∧
       (NewLoggingCallbacks t d w e).errorCb.isSome = true) ∧
      (NewLoggingCallbacks t d w e).isValid = true) ∧
    (∀ lc : LoggingCallbacks, lc.isValid = false →
      ∀ t d w e : Option LogFn, lc ≠ NewLoggingCallbacks t d w e) ∧
    zeroLoggingCallbacks.isValid = false := by
  refine ⟨?_, ?_, rfl⟩
  · intro t d w e
    constructor
    · refine ⟨?_, ?_, ?_, ?_⟩ <;>
        · simp only [NewLoggingCallbacks]
          cases t <;> cases d <;> cases w <;> cases e <;> simp
    · simp only [NewLoggingCallbacks, LoggingCallbacks.isValid]
      cases t <;> cases d <;> cases w <;> cases e <;> simp
  · intro lc hlc t d w e hEq
    have hvalid : (NewLoggingCallbacks t d w e).isValid = true := by
      simp only [NewLoggingCallbacks, LoggingCallbacks.isValid]
      cases t <;> cases d <;> cases w <;> cases e <;> simp
    rw [hEq] at hlc
    rw [hlc] at hvalid
    exact Bool.false_ne_true hvalid

/-- C10 witness: the theorem applied at concrete inputs: all-nil arguments
yield a valid set, and the hand-built zero-valued set, which fails isValid,
is not equal to any constructor output. -/
theorem newLoggingCallbacks_always_valid_witness :
    (NewLoggingCallbacks none none none none).isValid = true ∧
    zeroLoggingCallbacks ≠ NewLoggingCallbacks none none none none :=
  ⟨(newLoggingCallbacks_always_valid.1 none none none none).2,
   newLoggingCallbacks_always_valid.2.1 zeroLoggingCallbacks rfl none none none none⟩

/-- C1: the claim states the TLS handshake deadline applied to an accepted
socket is min(now + 10 s, accept deadline).  The source computes that
minimum and then unconditionally overwrites it with the accept deadline
(line 345), so with a 60 s connect timeout (accept deadline 60000 ms, both
clocks at 0) the code applies 60000 ms where the claimed minimum is
10000 ms. -/
theorem serverTLSHandshakeDeadline_overwrites_min :
    serverTLSHandshakeDeadline true 60000 0 0 = 60000 ∧
    specTLSHandshakeDeadline 60000 0 0 = 10000 ∧
    serverTLSHandshakeDeadline true 60000 0 0 ≠ specTLSHandshakeDeadline 60000 0 0 := by
  refine ⟨rfl, rfl, ?_⟩
  decide

/- ====================  claim C2  ==================== -/

/-- C2 counterexample: with a client already established, a further
accepted socket is indeed not published, but the claim also asserts the
newly accepted socket is closed immediately; the rejection path of the
accept loop only logs and continues, so closedNewSock is false. -/
theorem serverSecondAccept_sock_left_open :
    TCPServerConnection.synchedClientIsConnected serverEstabSample = true ∧
    (serverHandleAcceptedClient serverEstabSample "10.0.0.2:9001"
      (InnerConnResult.ok tcpOpenSample)).publishedEstab = false ∧
    (serverHandleAcceptedClient serverEstabSample "10.0.0.2:9001"
      (InnerConnResult.ok tcpOpenSample)).closedNewSock = false :=
  ⟨rfl, rfl, rfl⟩

/-- C2 amended: while an established inner endpoint is present, every
further accepted connection is rejected with a trace log and never
published as the established endpoint, the server state is unchanged, and
the onConnect callback is not invoked; the newly accepted socket is not
explicitly closed by the server (it is merely abandoned). -/
theorem serverSecondAccept_rejected_unpublished (st : TCPServerConnection)
    (remoteAddr : String) (inner : InnerConnResult)
    (h : st.estab.isSome = true) :
    serverHandleAcceptedClient st remoteAddr inner =
      { st := st, publishedEstab := false, closedNewSock := false,
        loggedRejectTrace := true, invokedOnConnect := false } := by
  simp [serverHandleAcceptedClient, TCPServerConnection.synchedClientIsConnected, h]

/-- C2 witness: the amended theorem applied to a server with an established
client and a concrete second accepted socket. -/
theorem serverSecondAccept_rejected_unpublished_witness :
    serverEstabSample.estab.isSome = true ∧
    serverHandleAcceptedClient serverEstabSample "10.0.0.2:9001"
      (InnerConnResult.ok tcpOpenSample) =
      { st := serverEstabSample, publishedEstab := false, closedNewSock := false,
        loggedRejectTrace := true, invokedOnConnect := false } :=
  ⟨rfl, serverSecondAccept_rejected_unpublished serverEstabSample "10.0.0.2:9001"
    (InnerConnResult.ok tcpOpenSample) rfl⟩

/- ====================  claim C3  ==================== -/

/-- C3 counterexample: on a connected-mode open UDP endpoint, a send whose
socket write fails returns an error but the endpoint does not transition to
closed, contradicting the claim for the UDP variant. -/
theorem udpSendWriteFailure_not_closed :
    (UDPConnection.Send udpConnectedSample true).err = some SendError.writeFailed ∧
    (UDPConnection.Send udpConnectedSample true).st.closed = false :=
  ⟨rfl, rfl⟩

/-- C3 amended: on a write failure during send, the TCP endpoint
transitions to closed (via the spawned Close) and runs its onInvalidate
hook, returning a failure; the UDP endpoint returns a failure with its
state unchanged, not transitioning to closed; the TCP server holds
estabMutex across the inner send, so on an inner write failure the inner
onInvalidate hook re-locks that mutex and the send self-deadlocks: it
never returns, no failure reaches the caller, the server is not marked
closed, and the established slot is never cleared, although the inner
endpoint itself is closed by its spawned Close. -/
theorem sendWriteFailure_per_variant :
    (∀ st : TCPConnection, st.closed = false →
      (TCPConnection.Send st true).st.closed = true ∧
      (TCPConnection.Send st true).st.invalidated = true ∧
      (TCPConnection.Send st true).err = some SendError.writeFailed) ∧
    (∀ st : UDPConnection, st.closed = false → UDPConnection.Ready st = true →
      (UDPConnection.Send st true).st = st ∧
      (UDPConnection.Send st true).err = some SendError.writeFailed) ∧
    (∀ st : TCPServerConnection, st.closed = false →
      ∀ inner : TCPConnection, st.estab = some inner → inner.closed = false →
      (TCPServerConnection.Send st true).returns = false ∧
      (TCPServerConnection.Send st true).st.estab =
        some { inner with closed := true, closeInitiated := true } ∧
      (TCPServerConnection.Send st true).st.closed = false) := by
  refine ⟨?_, ?_, ?_⟩
  · intro st h
    simp [TCPConnection.Send, h]
  · intro st h hr
    simp [UDPConnection.Send, h, hr]
  · intro st h inner hestab hinner
    simp [TCPServerConnection.Send, TCPServerConnection.Ready,
      TCPServerConnection.synchedClientIsConnected, h, hestab, hinner]

/-- C3 witness: the amended theorem applied to a concrete open TCP
connection, a concrete connected-mode UDP connection, and a concrete server
with an established open client, each with a failing write. -/
theorem sendWriteFailure_per_variant_witness :
    (TCPConnection.Send tcpOpenSample true).st.closed = true ∧
    (UDPConnection.Send udpConnectedSample true).st = udpConnectedSample ∧
    (TCPServerConnection.Send serverEstabSample true).returns = false :=
  ⟨(sendWriteFailure_per_variant.1 tcpOpenSample rfl).1,
   (sendWriteFailure_per_variant.2.1 udpConnectedSample rfl rfl).1,
   (sendWriteFailure_per_variant.2.2 serverEstabSample rfl tcpOpenSample rfl rfl).1⟩

/- ====================  claim C4  ==================== -/

/-- C4 counterexample: closing an open half-open UDP endpoint waits on
doneSignal with a bound of 1000 ms, not a bound of about 100 ms as the
claim states for every variant. -/
theorem udpCloseWait_not_about_100ms :
    (UDPConnection.Close udpPinnedSample false).actions.waitBoundMs = some 1000 ∧
    ¬ (1000 : Nat) ≤ 150 :=
  ⟨rfl, by decide⟩

/-- C4 amended: a graceful close of a not-already-closed endpoint sets a
50 ms socket deadline, waits on doneSignal with a bound of 99 ms for the
TCP client and TCP server variants but 1000 ms for the UDP variant, then
forcibly closes the socket and marks the endpoint closed; close always
returns (every Close embedding is a total function). -/
theorem closeActions_per_variant :
    (∀ st : TCPConnection, st.closed = false → ∀ scf : Bool,
      (TCPConnection.Close st scf).actions =
        { setDeadlineMs := some 50, waitBoundMs := some 99, forcedSocketClose := true } ∧
      (TCPConnection.Close st scf).st.closed = true) ∧
    (∀ st : UDPConnection, st.closed = false → ∀ scf : Bool,
      (UDPConnection.Close st scf).actions =
        { setDeadlineMs := some 50, waitBoundMs := some 1000, forcedSocketClose := true } ∧
      (UDPConnection.Close st scf).st.closed = true) ∧
    (∀ st : TCPServerConnection, st.closed = false → ∀ scf : Bool,
      (TCPServerConnection.Close st scf).actions =
        { setDeadlineMs := some 50, waitBoundMs := some 99, forcedSocketClose := true } ∧
      (TCPServerConnection.Close st scf).st.closed = true) := by
  refine ⟨?_, ?_, ?_⟩
  · intro st h scf
    simp [TCPConnection.Close, h]
  · intro st h scf
    simp [UDPConnection.Close, h]
  · intro st h scf
    simp [TCPServerConnection.Close, h]

/-- C4 witness: the amended theorem applied to concrete open endpoints of
each variant. -/
theorem closeActions_per_variant_witness :
    (TCPConnection.Close tcpOpenSample false).actions.waitBoundMs = some 99 ∧
    (UDPConnection.Close udpPinnedSample false).actions.waitBoundMs = some 1000 ∧
    (TCPServerConnection.Close serverEstabSample false).actions.waitBoundMs = some 99 :=
  ⟨by rw [(closeActions_per_variant.1 tcpOpenSample rfl false).1],
   by rw [(closeActions_per_variant.2.1 udpPinnedSample rfl false).1],
   by rw [(closeActions_per_variant.2.2 serverEstabSample rfl false).1]⟩

/- ====================  claim C5  ==================== -/

/-- C5: the claim states a read error before any datagram has arrived never
causes the peer comparison to dereference an absent peer address.  In the
source, a non-timeout read error (for which ReadFromUDP returns a nil
source address) falls through to the pin, assigns firstConnected := nil,
and then the comparison evaluates conn.firstConnected.IP, a nil-pointer
dereference; this happens both without a configured timeout and with one. -/
theorem udpPrePinReadError_nil_deref :
    (udpHalfOpenIter udpUnpinnedSample 0 none (some NetError.other)).ctl =
      LoopCtl.panicNilDeref ∧
    (udpHalfOpenIter { udpUnpinnedSample with timeoutMs := 5000 } 0 none
      (some NetError.other)).ctl = LoopCtl.panicNilDeref :=
  ⟨rfl, rfl⟩

/- ====================  claim C6  ==================== -/

/-- C6: for every endpoint variant, once closed is true every send fails
without attempting a write to the socket, and every further close returns
nil while performing none of the shutdown actions (no deadline, no wait, no
forced socket close) and leaving the state unchanged: only the first close
performs the shutdown work. -/
theorem closedEndpoint_send_fails_close_idempotent :
    (∀ st : TCPConnection, st.closed = true → ∀ wf scf : Bool,
      (TCPConnection.Send st wf).err.isSome = true ∧
      (TCPConnection.Send st wf).wrote = false ∧
      (TCPConnection.Close st scf).returnedNil = true ∧
      (TCPConnection.Close st scf).actions = CloseActions.none ∧
      (TCPConnection.Close st scf).st = st) ∧
    (∀ st : UDPConnection, st.closed = true → ∀ wf scf : Bool,
      (UDPConnection.Send st wf).err.isSome = true ∧
      (UDPConnection.Send st wf).wrote = none ∧
      (UDPConnection.Close st scf).returnedNil = true ∧
      (UDPConnection.Close st scf).actions = CloseActions.none ∧
      (UDPConnection.Close st scf).st = st) ∧
    (∀ st : TCPServerConnection, st.closed = true → ∀ wf scf : Bool,
      (TCPServerConnection.Send st wf).err.isSome = true ∧
      (TCPServerConnection.Send st wf).wrote = false ∧
      (TCPServerConnection.Close st scf).returnedNil = true ∧
      (TCPServerConnection.Close st scf).actions = CloseActions.none ∧
      (TCPServerConnection.Close st scf).st = st) := by
  refine ⟨?_, ?_, ?_⟩
  · intro st h wf scf
    simp [TCPConnection.Send, TCPConnection.Close, h]
  · intro st h wf scf
    simp [UDPConnection.Send, UDPConnection.Close, h]
  · intro st h wf scf
    cases hestab : st.estab with
    | none =>
      simp [TCPServerConnection.Send, TCPServerConnection.Ready,
        TCPServerConnection.synchedClientIsConnected, TCPServerConnection.Close, h, hestab]
    | some inner =>
      simp [TCPServerConnection.Send, TCPServerConnection.Ready,
        TCPServerConnection.synchedClientIsConnected, TCPServerConnection.Close, h, hestab]

/-- C6 witness: the theorem applied to concrete closed endpoints of each
variant. -/
theorem closedEndpoint_send_fails_close_idempotent_witness :
    (TCPConnection.Send tcpClosedSample false).wrote = false ∧
    (UDPConnection.Send udpClosedSample false).wrote = none ∧
    (TCPServerConnection.Close serverClosedSample false).returnedNil = true :=
  ⟨(closedEndpoint_send_fails_close_idempotent.1 tcpClosedSample rfl false false).2.1,
   (closedEndpoint_send_fails_close_idempotent.2.1 udpClosedSample rfl false false).2.1,
   (closedEndpoint_send_fails_close_idempotent.2.2 serverClosedSample rfl false false).2.2.1⟩

/- ====================  claim C7  ==================== -/

/-- C7: in half-open UDP, every datagram whose source differs from the
pinned firstConnected in IP, Zone or Port is dropped with a debug log: the
receive handler is not spawned for its bytes, the state is unchanged, and
the loop continues, after first checking the read error (breaking out of
the loop when the read also returned an error). -/
theorem udpMismatchedDatagram_dropped (st : UDPConnection) (f r : UDPAddr) (n : Nat)
    (err : Option NetError)
    (hpin : st.firstConnected = some f)
    (hmis : (!(f.ip == r.ip) || (f.zone != r.zone) || (f.port != r.port)) = true) :
    (udpHalfOpenIter st n (some r) err).delivered = false ∧
    (udpHalfOpenIter st n (some r) err).loggedDrop = true ∧
    (udpHalfOpenIter st n (some r) err).st = st ∧
    (udpHalfOpenIter st n (some r) err).ctl =
      (if err.isSome then LoopCtl.brk else LoopCtl.cont) := by
  have htail : udpHalfOpenIterTail st n (some r) err =
      (match err with
       | some _ => { st := st, delivered := false, loggedDrop := true, ctl := LoopCtl.brk }
       | Option.none => { st := st, delivered := false, loggedDrop := true, ctl := LoopCtl.cont }) := by
    simp [udpHalfOpenIterTail, hpin, udpPeerMismatch, hmis]
  have hiter : udpHalfOpenIter st n (some r) err = udpHalfOpenIterTail st n (some r) err := by
    simp [udpHalfOpenIter, hpin]
  rw [hiter, htail]
  cases err <;> simp

/-- C7 witness: the theorem applied to a connection pinned to one address
receiving a two-byte datagram from a different address with no read
error. -/
theorem udpMismatchedDatagram_dropped_witness :
    udpPinnedSample.firstConnected = some addrASample ∧
    (udpHalfOpenIter udpPinnedSample 2 (some addrBSample) none).delivered = false ∧
    (udpHalfOpenIter udpPinnedSample 2 (some addrBSample) none).loggedDrop = true :=
  ⟨rfl,
   (udpMismatchedDatagram_dropped udpPinnedSample addrASample addrBSample 2 none rfl
     (by decide)).1,
   (udpMismatchedDatagram_dropped udpPinnedSample addrASample addrBSample 2 none rfl
     (by decide)).2.1⟩

/- ====================  claim C8  ==================== -/

/-- C8: on an open half-open UDP endpoint, every send attempted before a
peer has been pinned fails with the no-peer error without any write to the
socket, and every send after pinning performs a WriteToUDP targeted at
firstConnected. -/
theorem udpHalfOpenSend_targets (st : UDPConnection)
    (hho : st.startedHalfOpen = true) (hopen : st.closed = false) :
    (st.firstConnected = none → ∀ wf : Bool,
      UDPConnection.Send st wf =
        { st := st, wrote := none, err := some SendError.noClient }) ∧
    (∀ a : UDPAddr, st.firstConnected = some a → ∀ wf : Bool,
      (UDPConnection.Send st wf).wrote = some (UDPWriteDest.writeToUDP (some a)) ∧
      (UDPConnection.Send st wf).st = st) := by
  constructor
  · intro hnone wf
    simp [UDPConnection.Send, UDPConnection.Ready, hho, hopen, hnone]
  · intro a hpin wf
    cases wf <;> simp [UDPConnection.Send, UDPConnection.Ready, hho, hopen, hpin]

/-- C8 witness: the theorem applied to a concrete unpinned half-open
connection (send fails with the no-peer error, nothing written) and a
concrete pinned one (send writes to the pinned address). -/
theorem udpHalfOpenSend_targets_witness :
    UDPConnection.Send udpUnpinnedSample false =
      { st := udpUnpinnedSample, wrote := none, err := some SendError.noClient } ∧
    (UDPConnection.Send udpPinnedSample false).wrote =
      some (UDPWriteDest.writeToUDP (some addrASample)) :=
  ⟨(udpHalfOpenSend_targets udpUnpinnedSample rfl rfl).1 rfl false,
   ((udpHalfOpenSend_targets udpPinnedSample rfl rfl).2 addrASample rfl false).1⟩

/- ====================  claim C9  ==================== -/

/-- C9: the prompt monitor polls the connection every 10 ms; on a tick with
the connection closed it fails the prompt with the invalid variant, which
makes the session exit with the error, and on a tick with the connection
not closed but not ready it fails the prompt with the transient variant,
which makes the session recreate the line editor and continue. -/
theorem promptPoll_and_session_reaction :
    promptPollIntervalMs = 10 ∧
    (∀ c : ConnStatus, c.closed = true →
      promptMonitorPoll c =
        PollDecision.failPrompt { afterPrefixPrinted := true, invalid := true } ∧
      sessionHandleCloseErr { afterPrefixPrinted := true, invalid := true } =
        SessionStep.exitWithError) ∧
    (∀ c : ConnStatus, c.closed = false → c.ready = false →
      promptMonitorPoll c =
        PollDecision.failPrompt { afterPrefixPrinted := true, invalid := false } ∧
      sessionHandleCloseErr { afterPrefixPrinted := true, invalid := false } =
        SessionStep.recreateLinerAndContinue) := by
  refine ⟨rfl, ?_, ?_⟩
  · intro c h
    simp [promptMonitorPoll, sessionHandleCloseErr, h]
  · intro c hc hr
    simp [promptMonitorPoll, sessionHandleCloseErr, hc, hr]

/-- C9 witness: the theorem applied to a closed connection status and to a
live-but-not-ready one. -/
theorem promptPoll_and_session_reaction_witness :
    promptMonitorPoll { closed := true, ready := false } =
      PollDecision.failPrompt { afterPrefixPrinted := true, invalid := true } ∧
    promptMonitorPoll { closed := false, ready := false } =
      PollDecision.failPrompt { afterPrefixPrinted := true, invalid := false } :=
  ⟨(promptPoll_and_session_reaction.2.1 { closed := true, ready := false } rfl).1,
   (promptPoll_and_session_reaction.2.2 { closed := false, ready := false } rfl rfl).1⟩
